import Mathlib

/-!
Verification of the `cpp-k8-microservices` repository (producer → processor → consumer
HTTP pipeline). The development shallowly embeds the three services' handler and loop
bodies from `src/consumer/consumer.cpp`, `src/processor/processor.cpp`,
`src/producer/producer.cpp` (and the earlier producer in `src/unnamed/part_000`).

The JSON layer models nlohmann::json as the services use it: values are null, booleans,
integers, strings and objects; objects are kept sorted by key, mirroring the std::map
that nlohmann::json stores object members in. `Json.parse` models `json::parse`
(an `Except.error` result stands for the thrown `parse_error`), `jsonIndex` models the
non-const `operator[]` with a string key, and `jsonToInt` models the implicit
conversion to `int`. The services exchange no arrays or floating-point numbers, so the
model omits them: a body outside this fragment is classified as unparseable, which
yields the same observable handler outcome as the exception nlohmann raises on the
first field access of such a value.
-/

mutual

/-- JSON values as exchanged by the three services. -/
inductive Json where
  | null : Json
  | bool : Bool → Json
  | int : Int → Json
  | str : String → Json
  | obj : JsonObj → Json

/-- Members of a JSON object, kept sorted by key (nlohmann::json uses a std::map). -/
inductive JsonObj where
  | nil : JsonObj
  | cons : String → Json → JsonObj → JsonObj

end

/-- Lexicographic comparison of character lists, as std::string operator< compares the
(ASCII) keys the services use. -/
def charListLt : List Char → List Char → Bool
  | [], [] => false
  | [], _ :: _ => true
  | _ :: _, [] => false
  | a :: as, b :: bs =>
    if a.toNat < b.toNat then true
    else if b.toNat < a.toNat then false
    else charListLt as bs

/-- Key order of the std::map inside an nlohmann object. -/
def strLt (a b : String) : Bool := charListLt a.data b.data

/-- Sorted insertion of a member, replacing an existing key: this models both
`operator[]=` assignment on an nlohmann object and member insertion during parsing. -/
def JsonObj.insert : JsonObj → String → Json → JsonObj
  | .nil, k, v => .cons k v .nil
  | .cons k₂ v₂ rest, k, v =>
    if strLt k k₂ then .cons k v (.cons k₂ v₂ rest)
    else if k = k₂ then .cons k v rest
    else .cons k₂ v₂ (rest.insert k v)

/-- Key lookup among the members of a JSON object. -/
def JsonObj.find : JsonObj → String → Option Json
  | .nil, _ => none
  | .cons k₂ v rest, k => if k = k₂ then some v else rest.find k

mutual

/-- Serialization, as produced by nlohmann `dump()` and by streaming a json value with
`operator<<`: compact, no spaces, object members in stored (key-sorted) order. The
strings the services emit contain no characters that need escaping. -/
def Json.dump : Json → String
  | .null => "null"
  | .bool b => if b then "true" else "false"
  | .int n => toString n
  | .str s => "\"" ++ s ++ "\""
  | .obj fields => "\x7b" ++ fields.dump ++ "\x7d"

/-- Serialization of object members, comma-separated. -/
def JsonObj.dump : JsonObj → String
  | .nil => ""
  | .cons k v .nil => "\"" ++ k ++ "\":" ++ v.dump
  | .cons k v (.cons k₂ v₂ rest) =>
      "\"" ++ k ++ "\":" ++ v.dump ++ "," ++ (JsonObj.cons k₂ v₂ rest).dump

end

/-- Drop JSON whitespace. -/
def skipWs : List Char → List Char
  | [] => []
  | c :: cs => if c = ' ' ∨ c = '\n' ∨ c = '\t' ∨ c = '\r' then skipWs cs else c :: cs

/-- Match a literal character sequence, returning the remainder. -/
def dropLit : List Char → List Char → Option (List Char)
  | [], cs => some cs
  | l :: ls, c :: cs => if c = l then dropLit ls cs else none
  | _ :: _, [] => none

/-- Characters of a string literal after the opening quote (accumulator reversed). -/
def parseStrAux (acc : List Char) : List Char → Option (String × List Char)
  | [] => none
  | c :: cs =>
    if c = '"' then some (⟨acc.reverse⟩, cs)
    else if c = '\\' then
      match cs with
      | '"' :: cs₂ => parseStrAux ('"' :: acc) cs₂
      | '\\' :: cs₂ => parseStrAux ('\\' :: acc) cs₂
      | 'n' :: cs₂ => parseStrAux ('\n' :: acc) cs₂
      | 't' :: cs₂ => parseStrAux ('\t' :: acc) cs₂
      | _ => none
    else parseStrAux (c :: acc) cs

/-- Consume a maximal run of decimal digits. -/
def takeDigits : List Char → Nat → Nat × List Char
  | c :: cs, acc => if c.isDigit then takeDigits cs (acc * 10 + (c.toNat - 48)) else (acc, c :: cs)
  | [], acc => (acc, [])

/-- An integer token: optional minus sign followed by at least one digit. -/
def parseIntToken : List Char → Option (Int × List Char)
  | '-' :: cs =>
    match cs with
    | c :: _ =>
      if c.isDigit then
        let r := takeDigits cs 0
        some (-(r.1 : Int), r.2)
      else none
    | [] => none
  | cs =>
    match cs with
    | c :: _ =>
      if c.isDigit then
        let r := takeDigits cs 0
        some ((r.1 : Int), r.2)
      else none
    | [] => none

mutual

/-- One JSON value, fuel-bounded recursive descent. -/
def parseValue : Nat → List Char → Option (Json × List Char)
  | 0, _ => none
  | fuel + 1, cs =>
    match skipWs cs with
    | [] => none
    | c :: rest =>
      if c = 'n' then (dropLit ['u', 'l', 'l'] rest).map (fun r => (Json.null, r))
      else if c = 't' then (dropLit ['r', 'u', 'e'] rest).map (fun r => (Json.bool true, r))
      else if c = 'f' then (dropLit ['a', 'l', 's', 'e'] rest).map (fun r => (Json.bool false, r))
      else if c = '"' then (parseStrAux [] rest).map (fun r => (Json.str r.1, r.2))
      else if c = '\x7b' then
        match skipWs rest with
        | '\x7d' :: rest₂ => some (Json.obj .nil, rest₂)
        | rest₂ => (parseObjFields fuel .nil rest₂).map (fun r => (Json.obj r.1, r.2))
      else (parseIntToken (c :: rest)).map (fun r => (Json.int r.1, r.2))

/-- Members of an object after the opening brace (or after a comma). -/
def parseObjFields : Nat → JsonObj → List Char → Option (JsonObj × List Char)
  | 0, _, _ => none
  | fuel + 1, acc, cs =>
    match skipWs cs with
    | '"' :: rest =>
      match parseStrAux [] rest with
      | none => none
      | some (key, rest₂) =>
        match skipWs rest₂ with
        | ':' :: rest₃ =>
          match parseValue fuel rest₃ with
          | none => none
          | some (v, rest₄) =>
            match skipWs rest₄ with
            | ',' :: rest₅ => parseObjFields fuel (acc.insert key v) rest₅
            | '\x7d' :: rest₅ => some (acc.insert key v, rest₅)
            | _ => none
        | _ => none
    | _ => none

end

/-- Model of `nlohmann::json::parse`: `Except.error` stands for the thrown
`json::parse_error` exception, `Except.ok` for the parsed value. -/
def Json.parse (s : String) : Except String Json :=
  match parseValue (s.length + 2) s.data with
  | some (j, rest) => if skipWs rest = [] then .ok j else .error "parse error"
  | none => .error "parse error"

/-- Model of nlohmann non-const `operator[]` with a string key: looks the key up in an
object (yielding null when absent), treats null as an empty object, and raises
`type_error.305` on any other value (`Except.error` stands for the thrown exception). -/
def jsonIndex : Json → String → Except String Json
  | .obj fields, k => .ok ((fields.find k).getD .null)
  | .null, _ => .ok .null
  | _, _ => .error "type error: cannot use operator[] with a string argument"

/-- Model of the implicit nlohmann conversion to `int`: raises `type_error.302` unless
the value is an integer. -/
def jsonToInt : Json → Except String Int
  | .int n => .ok n
  | _ => .error "type error: type must be number"

example : Json.parse "\x7b\x7d" = .ok (.obj .nil) := rfl
example : Json.parse "\x7b\"value\": 42\x7d" = .ok (.obj (.cons "value" (.int 42) .nil)) := rfl
example : Json.parse "not json" = .error "parse error" := rfl
set_option maxRecDepth 4096 in
example :
    Json.parse "\x7b\"original\": 3, \"processed\": 7\x7d" =
      .ok (.obj (.cons "original" (.int 3) (.cons "processed" (.int 7) .nil))) := rfl
example : Json.dump (.obj (.cons "value" (.int (-5)) .nil)) = "\x7b\"value\":-5\x7d" := rfl

/-!
HTTP layer. An outbound `httplib::Client::Get` either yields no result object
(connection refused, timeout, DNS failure — the null `httplib::Result`) or a response
with a status and a body; this is `Option HttpResponse`. A handler receives the inbound
request and (in this embedding) the outcome of the upstream fetch it performs, and
either returns normally or lets an exception escape, recorded together with the state
of the response object at the moment of the throw.
-/

/-- A response as seen through httplib: numeric status and raw body. -/
structure HttpResponse where
  status : Int
  body : String

/-- An inbound HTTP request (the services' handlers never read it). -/
structure HttpRequest where
  path : String
  headers : List (String × String)
  reqBody : String

/-- The mutable `httplib::Response` a handler fills in: status is `-1` while unset. -/
structure ServerResponse where
  status : Int
  body : String
  contentType : String

/-- How a handler invocation ends: a normal return, or an exception escaping the
handler, with the response object as the handler left it. -/
inductive HandlerOutcome where
  | ok : ServerResponse → HandlerOutcome
  | threw : ServerResponse → String → HandlerOutcome

/-- A completed (newline-terminated) log line, on stdout or stderr. -/
inductive LogLine where
  | out : String → LogLine
  | err : String → LogLine

/-- What one handler invocation does: the outbound GET targets it requests, the
completed log lines it writes, and how it ends. -/
structure HandlerResult where
  calls : List String
  logs : List LogLine
  outcome : HandlerOutcome

/-- Modelled from the spec: the HTTP transport is treated as a black box (§1); its
request framing is the vendored httplib.h, which is not under src/. A response whose
status was never set is sent with status 200; an exception escaping a handler is caught
by the server, which reports status 500 around whatever content the handler had already
staged, and the process keeps serving (§7: "the process never exits on an upstream
error"). -/
def serveOutcome : HandlerOutcome → ServerResponse
  | .ok r => if r.status = -1 then { r with status := 200 } else r
  | .threw r _ => { r with status := 500 }

/-- Configuration of an outbound httplib client as the source sets it up: the base URL
passed to the constructor and whether the code ever sets each timeout. -/
structure ClientSetup where
  baseUrl : String
  connectionTimeoutSet : Bool
  readTimeoutSet : Bool
  writeTimeoutSet : Bool

/-- Modelled from the spec: timeout behaviour lives in the vendored httplib.h (not under
src/), and §9 states that an unset outbound timeout "can hang a handler indefinitely on
a wedged upstream". A fetch is bounded only if the code itself set the timeouts. -/
def ClientSetup.boundedFetch (c : ClientSetup) : Bool :=
  c.connectionTimeoutSet && c.readTimeoutSet && c.writeTimeoutSet

/-!
Consumer service, from `src/consumer/consumer.cpp`.
-/

/-- `getEnv(name, defaultValue)`: the environment is a partial map from names to
values. -/
def getEnv (env : String → Option String) (name : String) (defaultValue : String) : String :=
  (env name).getD defaultValue

/-- Model of `std::stoi`: skip leading whitespace, read an optional sign and at least
one digit (else `invalid_argument`), ignore trailing characters, and fail with
`out_of_range` outside the range of a 32-bit `int`. `Except.error` stands for the
thrown exception, which per §7 aborts startup. -/
def stoi (s : String) : Except String Int :=
  let cs := skipWs s.data
  match cs with
  | '-' :: cs₂ =>
    match cs₂ with
    | c :: _ =>
      if c.isDigit then
        let r := takeDigits cs₂ 0
        if (2147483648 : Int) < (r.1 : Int) then .error "out_of_range"
        else .ok (-(r.1 : Int))
      else .error "invalid_argument"
    | [] => .error "invalid_argument"
  | '+' :: cs₂ =>
    match cs₂ with
    | c :: _ =>
      if c.isDigit then
        let r := takeDigits cs₂ 0
        if (2147483647 : Int) < (r.1 : Int) then .error "out_of_range"
        else .ok (r.1 : Int)
      else .error "invalid_argument"
    | [] => .error "invalid_argument"
  | c :: _ =>
    if c.isDigit then
      let r := takeDigits cs 0
      if (2147483647 : Int) < (r.1 : Int) then .error "out_of_range"
      else .ok (r.1 : Int)
    else .error "invalid_argument"
  | [] => .error "invalid_argument"

/-- The consumer's `Config` record. -/
structure Config where
  port : Int
  processorHost : String
  processorPort : String
  pollIntervalSeconds : Int
  processorUrl : String

/-- `loadConfig()`: reads PORT, PROCESSOR_HOST, PROCESSOR_PORT and
POLL_INTERVAL_SECONDS with their defaults and derives `processorUrl`. An `stoi`
exception (error case) aborts startup. -/
def loadConfig (env : String → Option String) : Except String Config :=
  match stoi (getEnv env "PORT" "8082") with
  | .error e => .error e
  | .ok port =>
    let host := getEnv env "PROCESSOR_HOST" "processor"
    let pport := getEnv env "PROCESSOR_PORT" "8081"
    match stoi (getEnv env "POLL_INTERVAL_SECONDS" "5") with
    | .error e => .error e
    | .ok interval =>
      .ok { port := port, processorHost := host, processorPort := pport,
            pollIntervalSeconds := interval,
            processorUrl := "http://" ++ host ++ ":" ++ pport }

/-- The client the background consumption thread constructs each iteration:
`httplib::Client cli(config.processorUrl)` with no timeout ever set. -/
def consumerPollClient (cfg : Config) : ClientSetup :=
  { baseUrl := cfg.processorUrl, connectionTimeoutSet := false,
    readTimeoutSet := false, writeTimeoutSet := false }

/-- The client the `/consume` handler constructs: `httplib::Client
cli(config.processorUrl)` with no timeout ever set. -/
def consumeEndpointClient (cfg : Config) : ClientSetup :=
  { baseUrl := cfg.processorUrl, connectionTimeoutSet := false,
    readTimeoutSet := false, writeTimeoutSet := false }

/-- The error body both consumer error branches build: `error["error"] = "Failed to
call Processor service"`, then `error.dump()`. -/
def consumerErrorBody : String :=
  (Json.obj (JsonObj.nil.insert "error" (.str "Failed to call Processor service"))).dump

/-- The `/consume` handler (Manual Trigger Handler). It fetches
`config.processorUrl + "/process"`; on a non-null result with status 200 it stages the
upstream body verbatim via `set_content` and only then parses it for the `[MANUAL]`
log line, so a parse or `operator[]` exception escapes after the body is staged; any
other fetch outcome takes the error branch (status 500, `consumerErrorBody`). -/
def consumeHandler (cfg : Config) (_req : HttpRequest) (upstream : Option HttpResponse) :
    HandlerResult :=
  let calls := [cfg.processorUrl ++ "/process"]
  let baseLogs := [LogLine.out "[MANUAL] Consume endpoint called"]
  let errorRes : ServerResponse :=
    { status := 500, body := consumerErrorBody, contentType := "application/json" }
  match upstream with
  | some r =>
    if r.status = 200 then
      let staged : ServerResponse :=
        { status := -1, body := r.body, contentType := "application/json" }
      match Json.parse r.body with
      | .error e => { calls := calls, logs := baseLogs, outcome := .threw staged e }
      | .ok data =>
        match jsonIndex data "original" with
        | .error e => { calls := calls, logs := baseLogs, outcome := .threw staged e }
        | .ok ja =>
          match jsonIndex data "processed" with
          | .error e => { calls := calls, logs := baseLogs, outcome := .threw staged e }
          | .ok jb =>
            { calls := calls,
              logs := baseLogs ++
                [.out ("[MANUAL] Original: " ++ ja.dump ++ ", Processed: " ++ jb.dump)],
              outcome := .ok staged }
    else { calls := calls, logs := baseLogs, outcome := .ok errorRes }
  | none => { calls := calls, logs := baseLogs, outcome := .ok errorRes }

/-- The `/health` handler (Health Reporter): builds
`health["status"] = "healthy"; health["service"] = "consumer"` and sends its dump. It
performs no outbound call and ignores the request. -/
def healthHandler (_req : HttpRequest) : HandlerResult :=
  { calls := [],
    logs := [],
    outcome := .ok
      { status := -1,
        body := (Json.obj ((JsonObj.nil.insert "status" (.str "healthy")).insert
          "service" (.str "consumer"))).dump,
        contentType := "application/json" } }

/-- Whether the loop body falls through to the next iteration or leaves the loop; the
`while (true)` body of the consumption thread has no break or return, and its catch
clause covers every exception the body can raise. -/
inductive LoopControl where
  | next : LoopControl
  | exit : LoopControl

/-- What one iteration of the background consumption loop does. -/
structure PollEffect where
  calls : List String
  logs : List LogLine
  sleepSeconds : Int
  control : LoopControl

/-- One iteration of the consumption thread's `while (true)` body: fetch
`config.processorUrl + "/process"`; on a non-null 200 result parse the body and print
the `[CONSUME]` line (a parse or `operator[]` exception is caught and printed as
`[ERROR] Consumption error: ...`); otherwise print `[ERROR] Failed to call Processor
service`; then sleep the configured poll interval and continue. -/
def pollIteration (cfg : Config) (upstream : Option HttpResponse) : PollEffect :=
  { calls := [cfg.processorUrl ++ "/process"],
    logs :=
      match upstream with
      | some r =>
        if r.status = 200 then
          match Json.parse r.body with
          | .error e => [.err ("[ERROR] Consumption error: " ++ e)]
          | .ok data =>
            match jsonIndex data "original" with
            | .error e => [.err ("[ERROR] Consumption error: " ++ e)]
            | .ok ja =>
              match jsonIndex data "processed" with
              | .error e => [.err ("[ERROR] Consumption error: " ++ e)]
              | .ok jb =>
                [.out ("[CONSUME] Original: " ++ ja.dump ++ ", Processed: " ++ jb.dump)]
        else [.err "[ERROR] Failed to call Processor service"]
      | none => [.err "[ERROR] Failed to call Processor service"],
    sleepSeconds := cfg.pollIntervalSeconds,
    control := .next }

/-- The loop as a trace: iteration `n` of the consumption thread against a stream of
upstream fetch outcomes. -/
def pollTrace (cfg : Config) (upstreams : Nat → Option HttpResponse) (n : Nat) :
    PollEffect :=
  pollIteration cfg (upstreams n)

/-!
Processor service, from `src/processor/processor.cpp`.
-/

/-- The processor's configuration as `main` reads it: PORT, PRODUCER_HOST and
PRODUCER_PORT with their defaults, and the derived `producerUrl`. -/
structure ProcessorConfig where
  port : Int
  producerHost : String
  producerPort : String
  producerUrl : String

/-- Configuration loading in the processor's `main`. -/
def loadProcessorConfig (env : String → Option String) : Except String ProcessorConfig :=
  match stoi (getEnv env "PORT" "8081") with
  | .error e => .error e
  | .ok port =>
    let host := getEnv env "PRODUCER_HOST" "producer"
    let pport := getEnv env "PRODUCER_PORT" "8080"
    .ok { port := port, producerHost := host, producerPort := pport,
          producerUrl := "http://" ++ host ++ ":" ++ pport }

/-- The client the processor's `/process` handler constructs: `httplib::Client
cli("http://producer:8080")` — a string literal, with no timeout ever set. -/
def processorUpstreamClient : ClientSetup :=
  { baseUrl := "http://producer:8080", connectionTimeoutSet := false,
    readTimeoutSet := false, writeTimeoutSet := false }

/-- Wrap of a mathematical integer into a 32-bit two's-complement `int`, as the
narrowing in `int original_value = producer_data["value"]` behaves for in-range
values (the services only ever carry values 1–100 here). -/
def toCppInt (n : Int) : Int :=
  (n + 2147483648) % 4294967296 - 2147483648

/-- The members of the processor's success response: `response["original"] =
original_value; response["processed"] = processed_value` with `processed_value =
original_value * 2`. -/
def processorSuccessFields (originalValue : Int) : JsonObj :=
  (JsonObj.nil.insert "original" (.int originalValue)).insert
    "processed" (.int (originalValue * 2))

/-- The `/process` handler: fetch `"http://producer:8080" + "/data"`; on a non-null
200 result, parse the body, read `producer_data["value"]` into an `int` (either step
may throw, escaping the handler before any content is staged), double it, and send the
success response; any other fetch outcome takes the error branch (status 500,
`{"error": "Failed to call Producer service"}`). -/
def processorHandler (upstream : Option HttpResponse) : HandlerResult :=
  let calls := ["http://producer:8080" ++ "/data"]
  let untouched : ServerResponse := { status := -1, body := "", contentType := "" }
  let errorRes : ServerResponse :=
    { status := 500,
      body := (Json.obj (JsonObj.nil.insert "error"
        (.str "Failed to call Producer service"))).dump,
      contentType := "application/json" }
  match upstream with
  | some r =>
    if r.status = 200 then
      match Json.parse r.body with
      | .error e => { calls := calls, logs := [], outcome := .threw untouched e }
      | .ok pd =>
        match jsonIndex pd "value" with
        | .error e => { calls := calls, logs := [], outcome := .threw untouched e }
        | .ok jv =>
          match jsonToInt jv with
          | .error e => { calls := calls, logs := [], outcome := .threw untouched e }
          | .ok n =>
            let originalValue := toCppInt n
            { calls := calls,
              logs := [.out ("Recieved: " ++ toString originalValue ++
                ", Processed: " ++ toString (originalValue * 2))],
              outcome := .ok
                { status := -1,
                  body := (Json.obj (processorSuccessFields originalValue)).dump,
                  contentType := "application/json" } }
    else { calls := calls, logs := [.err "Error: Could not reach Producer"],
           outcome := .ok errorRes }
  | none => { calls := calls, logs := [.err "Error: Could not reach Producer"],
              outcome := .ok errorRes }

/-- The processor process as configured at startup: the loaded configuration together
with the `/process` handler `main` registers. The handler lambda captures nothing, so
the same `processorHandler` is registered whatever the environment says. -/
def processorService (env : String → Option String) :
    Except String (ProcessorConfig × (Option HttpResponse → HandlerResult)) :=
  match loadProcessorConfig env with
  | .error e => .error e
  | .ok cfg => .ok (cfg, processorHandler)

/-!
Producer service, from `src/producer/producer.cpp` and the earlier copy in
`src/unnamed/part_000` (identical `/data` handler; only the port handling differs).
-/

/-- Models `std::uniform_int_distribution<>(lo, hi)` applied to one mt19937 draw: some
value in `[lo, hi]` determined by the draw. The exact sampling algorithm is internal
to the C++ standard library; only its range contract is relevant here. -/
def uniformIntDistribution (lo hi : Int) (draw : Nat) : Int :=
  lo + ((draw % (hi + 1 - lo).toNat : Nat) : Int)

/-- The `/data` handler: draw a value from `uniform_int_distribution<>(1, 100)`, build
`response["value"] = value` and send its dump. It performs no outbound call and
ignores the request. -/
def producerHandler (_req : HttpRequest) (draw : Nat) : HandlerResult :=
  let value := uniformIntDistribution 1 100 draw
  { calls := [],
    logs := [.out ("Generated: " ++ toString value)],
    outcome := .ok
      { status := -1,
        body := (Json.obj (JsonObj.nil.insert "value" (.int value))).dump,
        contentType := "application/json" } }

/-- A concrete configuration: what `loadConfig` yields when no variable is set. -/
def cfgDefault : Config :=
  { port := 8082, processorHost := "processor", processorPort := "8081",
    pollIntervalSeconds := 5, processorUrl := "http://processor:8081" }

/-- A concrete inbound request for witnesses and counterexamples. -/
def sampleReq : HttpRequest :=
  { path := "/consume", headers := [], reqBody := "" }

example : loadConfig (fun _ => none) = .ok cfgDefault := rfl
example : (healthHandler sampleReq).outcome =
    .ok { status := -1, body := "\x7b\"service\":\"consumer\",\"status\":\"healthy\"\x7d",
          contentType := "application/json" } := rfl
example : consumerErrorBody = "\x7b\"error\":\"Failed to call Processor service\"\x7d" := rfl

/-!
Helper lemmas shared by the claim theorems.
-/

/-- Every branch of the consumption-loop body writes exactly one completed log line. -/
theorem pollIteration_logs_length (cfg : Config) (u : Option HttpResponse) :
    (pollIteration cfg u).logs.length = 1 := by
  unfold pollIteration
  rcases u with _ | r
  · rfl
  · dsimp only
    split
    · split
      · rfl
      · split
        · rfl
        · split
          · rfl
          · rfl
    · rfl

/-- The `/consume` handler issues exactly one outbound GET, to
`config.processorUrl + "/process"`, whatever the upstream does. -/
theorem consumeHandler_calls (cfg : Config) (req : HttpRequest)
    (u : Option HttpResponse) :
    (consumeHandler cfg req u).calls = [cfg.processorUrl ++ "/process"] := by
  unfold consumeHandler
  rcases u with _ | r
  · rfl
  · dsimp only
    split
    · split
      · rfl
      · split
        · rfl
        · split
          · rfl
          · rfl
    · rfl

/-- The processor's `/process` handler issues exactly one outbound GET, to the
hardcoded `"http://producer:8080" + "/data"`, whatever the upstream does. -/
theorem processorHandler_calls (u : Option HttpResponse) :
    (processorHandler u).calls = ["http://producer:8080" ++ "/data"] := by
  unfold processorHandler
  rcases u with _ | r
  · rfl
  · dsimp only
    split
    · split
      · rfl
      · split
        · rfl
        · split
          · rfl
          · rfl
    · rfl

/-- A 32-bit `int` holds small integers exactly. -/
theorem toCppInt_eq_self (n : Int) (h₁ : -2147483648 ≤ n) (h₂ : n ≤ 2147483647) :
    toCppInt n = n := by
  unfold toCppInt
  omega

/-!
Claim theorems.
-/

/-- C1: for every upstream response with HTTP status 200 and body
`{"original": o, "processed": p}` with `o` and `p` integers, the Manual Trigger
Handler (GET /consume) responds with HTTP status 200 and a body exactly equal to that
upstream body. -/
theorem consume_success_passthrough (cfg : Config) (req : HttpRequest)
    (o p : Int) (b : String)
    (hb : Json.parse b =
      .ok (.obj (.cons "original" (.int o) (.cons "processed" (.int p) .nil)))) :
    serveOutcome (consumeHandler cfg req (some ⟨200, b⟩)).outcome =
      { status := 200, body := b, contentType := "application/json" } := by
  simp [consumeHandler, hb, jsonIndex, JsonObj.find, serveOutcome]

set_option maxRecDepth 8192 in
/-- Witness for C1 at the concrete upstream body `{"original": 3, "processed": 7}`. -/
theorem consume_success_passthrough_witness :
    serveOutcome (consumeHandler cfgDefault sampleReq
        (some ⟨200, "\x7b\"original\": 3, \"processed\": 7\x7d"⟩)).outcome =
      { status := 200, body := "\x7b\"original\": 3, \"processed\": 7\x7d",
        contentType := "application/json" } :=
  consume_success_passthrough cfgDefault sampleReq 3 7 _ rfl

/-- C5 (refuted, code bug per §9 of the spec): no outbound fetch in the system — the
consumer's poll loop client, the consumer's /consume handler client, or the
processor's /process handler client — configures any timeout, so none of them is
bounded by the code; per the spec an unset timeout can hang the calling path
indefinitely on a wedged upstream. -/
theorem outbound_clients_set_no_timeout (cfg : Config) :
    (consumerPollClient cfg).connectionTimeoutSet = false ∧
    (consumerPollClient cfg).readTimeoutSet = false ∧
    ClientSetup.boundedFetch (consumerPollClient cfg) = false ∧
    ClientSetup.boundedFetch (consumeEndpointClient cfg) = false ∧
    ClientSetup.boundedFetch processorUpstreamClient = false :=
  ⟨rfl, rfl, rfl, rfl, rfl⟩

set_option maxRecDepth 8192 in
/-- C6: for every request to GET /health, regardless of its content and of upstream
availability, the Health Reporter responds 200 with the JSON object
`status: healthy, service: consumer` (serialized by nlohmann in key-sorted member
order) and performs no upstream call. -/
theorem health_always_200_no_upstream_call (req : HttpRequest) :
    (healthHandler req).calls = [] ∧
    serveOutcome (healthHandler req).outcome =
      { status := 200, body := "\x7b\"service\":\"consumer\",\"status\":\"healthy\"\x7d",
        contentType := "application/json" } ∧
    Json.parse "\x7b\"service\":\"consumer\",\"status\":\"healthy\"\x7d" =
      .ok (.obj (.cons "service" (.str "consumer")
        (.cons "status" (.str "healthy") .nil))) :=
  ⟨rfl, rfl, rfl⟩

/-- C10 (implicit): every response of the producer's GET /data endpoint is HTTP 200
with body `{"value": v}` for an integer `v` with `1 ≤ v ≤ 100`, for every request and
every random draw, with no outbound call. -/
theorem producer_data_value_in_range (req : HttpRequest) (draw : Nat) :
    (producerHandler req draw).calls = [] ∧
    serveOutcome (producerHandler req draw).outcome =
      { status := 200,
        body := (Json.obj (.cons "value" (.int (uniformIntDistribution 1 100 draw)) .nil)).dump,
        contentType := "application/json" } ∧
    1 ≤ uniformIntDistribution 1 100 draw ∧
    uniformIntDistribution 1 100 draw ≤ 100 := by
  refine ⟨rfl, rfl, ?_, ?_⟩ <;>
  · unfold uniformIntDistribution
    simp only [show ((100 : Int) + 1 - 1).toNat = 100 from rfl]
    have h : draw % 100 < 100 := Nat.mod_lt draw (by decide)
    omega

/-- C3: the Background Poller's loop has no exit — every iteration, for every upstream
fetch outcome, logs exactly one outcome line, sleeps the configured poll interval, and
falls through to the next iteration; no iteration terminates the loop. -/
theorem poller_one_line_per_iteration_never_exits (cfg : Config)
    (upstreams : Nat → Option HttpResponse) (n : Nat) :
    (pollTrace cfg upstreams n).logs.length = 1 ∧
    (pollTrace cfg upstreams n).sleepSeconds = cfg.pollIntervalSeconds ∧
    (pollTrace cfg upstreams n).control = .next :=
  ⟨pollIteration_logs_length cfg (upstreams n), rfl, rfl⟩

/-- Counterexample to C2 as stated: on an upstream 200 response with the malformed
body `"not json"`, the Manual Trigger Handler does not produce the JSON error body —
the response the transport reports has status 500 but carries the malformed upstream
body verbatim (staged by `set_content` before `json::parse` threw), which is not even
parseable JSON, so it has no `error` field. -/
theorem consume_malformed_body_counterexample :
    serveOutcome (consumeHandler cfgDefault sampleReq (some ⟨200, "not json"⟩)).outcome =
      { status := 500, body := "not json", contentType := "application/json" } ∧
    (consumeHandler cfgDefault sampleReq (some ⟨200, "not json"⟩)).outcome =
      .threw { status := -1, body := "not json", contentType := "application/json" }
        "parse error" ∧
    Json.parse "not json" = .error "parse error" :=
  ⟨rfl, rfl, rfl⟩

set_option maxRecDepth 8192 in
/-- C2 as amended: on a connection-refused (null result) or non-200 upstream outcome
the Manual Trigger Handler responds 500 with the JSON body whose `error` field is the
non-empty string "Failed to call Processor service"; on a 200 upstream response whose
body is malformed, the handler throws after staging the upstream body as its content,
and the transport reports a 500 whose body is that staged upstream body (not the error
JSON); in every case the handler yields an outcome (the process does not crash). -/
theorem consume_failure_amended (cfg : Config) (req : HttpRequest) :
    (∀ u : Option HttpResponse,
      (u = none ∨ ∃ r, u = some r ∧ r.status ≠ 200) →
        serveOutcome (consumeHandler cfg req u).outcome =
          { status := 500, body := consumerErrorBody,
            contentType := "application/json" } ∧
        Json.parse consumerErrorBody =
          .ok (.obj (.cons "error" (.str "Failed to call Processor service") .nil)) ∧
        "Failed to call Processor service" ≠ "") ∧
    (∀ b e, Json.parse b = .error e →
      serveOutcome (consumeHandler cfg req (some ⟨200, b⟩)).outcome =
        { status := 500, body := b, contentType := "application/json" }) := by
  constructor
  · rintro u (rfl | ⟨r, rfl, hr⟩)
    · exact ⟨rfl, rfl, by decide⟩
    · refine ⟨?_, rfl, by decide⟩
      simp [consumeHandler, hr, serveOutcome]
  · intro b e hb
    simp [consumeHandler, hb, serveOutcome]

/-- Witness for the amended C2 at two concrete failures: a null upstream result and a
200 response with unparseable body. -/
theorem consume_failure_amended_witness :
    serveOutcome (consumeHandler cfgDefault sampleReq none).outcome =
      { status := 500, body := consumerErrorBody, contentType := "application/json" } ∧
    serveOutcome (consumeHandler cfgDefault sampleReq (some ⟨200, "oops"⟩)).outcome =
      { status := 500, body := "oops", contentType := "application/json" } :=
  ⟨((consume_failure_amended cfgDefault sampleReq).1 none (Or.inl rfl)).1,
   (consume_failure_amended cfgDefault sampleReq).2 "oops" "parse error" rfl⟩

/-- Counterexample to C4 as stated: an upstream 200 response whose valid-JSON body
`{}` lacks the integer fields `original` and `processed` is treated as Success, not
Failure, by both paths — the Poller logs a `[CONSUME]` success line (the missing
fields print as `null`), and the Manual Trigger Handler responds 200 with that body. -/
theorem fetch_missing_fields_counterexample :
    (pollIteration cfgDefault (some ⟨200, "\x7b\x7d"⟩)).logs =
      [.out "[CONSUME] Original: null, Processed: null"] ∧
    serveOutcome (consumeHandler cfgDefault sampleReq (some ⟨200, "\x7b\x7d"⟩)).outcome =
      { status := 200, body := "\x7b\x7d", contentType := "application/json" } :=
  ⟨rfl, rfl⟩

/-- C4 as amended: connection refusal, timeout (both: null result) and non-200 status
yield the failure outcome on both paths (Poller error line; Manual Trigger 500 with
the error JSON); a 200 response with a malformed body yields the failure outcome on
the Poller path only (the parse exception is caught and logged with its reason), the
Manual Trigger having already staged the body as a success; and a 200 response with
valid JSON but missing fields is treated as Success by both paths, its absent fields
reading as null. -/
theorem fetch_failure_classification_amended (cfg : Config) (req : HttpRequest) :
    (∀ u : Option HttpResponse,
      (u = none ∨ ∃ r, u = some r ∧ r.status ≠ 200) →
        (pollIteration cfg u).logs = [.err "[ERROR] Failed to call Processor service"] ∧
        serveOutcome (consumeHandler cfg req u).outcome =
          { status := 500, body := consumerErrorBody,
            contentType := "application/json" }) ∧
    (∀ b e, Json.parse b = .error e →
        (pollIteration cfg (some ⟨200, b⟩)).logs =
          [.err ("[ERROR] Consumption error: " ++ e)]) ∧
    ((pollIteration cfg (some ⟨200, "\x7b\x7d"⟩)).logs =
        [.out "[CONSUME] Original: null, Processed: null"] ∧
      serveOutcome (consumeHandler cfg req (some ⟨200, "\x7b\x7d"⟩)).outcome =
        { status := 200, body := "\x7b\x7d", contentType := "application/json" }) := by
  refine ⟨?_, ?_, rfl, rfl⟩
  · rintro u (rfl | ⟨r, rfl, hr⟩)
    · exact ⟨rfl, rfl⟩
    · constructor
      · simp [pollIteration, hr]
      · simp [consumeHandler, hr, serveOutcome]
  · intro b e hb
    simp [pollIteration, hb]

/-- Witness for the amended C4 at two concrete failures: a null upstream result and a
200 response with unparseable body. -/
theorem fetch_failure_classification_amended_witness :
    (pollIteration cfgDefault none).logs =
      [.err "[ERROR] Failed to call Processor service"] ∧
    (pollIteration cfgDefault (some ⟨200, "garbage"⟩)).logs =
      [.err ("[ERROR] Consumption error: " ++ "parse error")] :=
  ⟨((fetch_failure_classification_amended cfgDefault sampleReq).1 none (Or.inl rfl)).1,
   (fetch_failure_classification_amended cfgDefault sampleReq).2.1 "garbage" "parse error" rfl⟩

/-- C7: for every integer value `v` the producer returns as `{"value": v}` (the
producer only emits 1–100), the processor's GET /process responds 200 with body
`{"original": v, "processed": 2*v}`, and in every success response the stored
`processed` member equals twice the stored `original` member — the transform is
deterministic. -/
theorem processor_doubles_value (b : String) (v : Int)
    (hb : Json.parse b = .ok (.obj (.cons "value" (.int v) .nil)))
    (h₁ : 1 ≤ v) (h₂ : v ≤ 100) :
    serveOutcome (processorHandler (some ⟨200, b⟩)).outcome =
      { status := 200, body := (Json.obj (processorSuccessFields v)).dump,
        contentType := "application/json" } ∧
    (∀ n : Int,
      (processorSuccessFields n).find "processed" = some (.int (2 * n)) ∧
      (processorSuccessFields n).find "original" = some (.int n)) := by
  constructor
  · have hv : toCppInt v = v := toCppInt_eq_self v (by omega) (by omega)
    simp [processorHandler, hb, jsonIndex, JsonObj.find, jsonToInt, hv, serveOutcome]
  · intro n
    constructor
    · show some (Json.int (n * 2)) = some (Json.int (2 * n))
      rw [Int.mul_comm]
    · rfl

set_option maxRecDepth 8192 in
/-- Witness for C7 at the concrete producer value 42 (42 → 84). -/
theorem processor_doubles_value_witness :
    serveOutcome (processorHandler (some ⟨200, "\x7b\"value\": 42\x7d"⟩)).outcome =
      { status := 200, body := (Json.obj (processorSuccessFields 42)).dump,
        contentType := "application/json" } :=
  (processor_doubles_value "\x7b\"value\": 42\x7d" 42 rfl (by decide) (by decide)).1

/-- C8: a configuration successfully loaded at process start has its derived upstream
URL equal to `"http://" ++ host ++ ":" ++ port`, and both the Poller and the Manual
Trigger Handler read only that one configuration value — each iteration and each
invocation targets exactly `processorUrl ++ "/process"`. (In the embedding the
`Config` record is a pure value captured by copy, so nothing can mutate it after
`loadConfig` returns.) -/
theorem config_url_derivation_immutable (env : String → Option String) (cfg : Config)
    (h : loadConfig env = .ok cfg) :
    cfg.processorUrl = "http://" ++ cfg.processorHost ++ ":" ++ cfg.processorPort ∧
    (∀ u, (pollIteration cfg u).calls = [cfg.processorUrl ++ "/process"]) ∧
    (∀ req u, (consumeHandler cfg req u).calls = [cfg.processorUrl ++ "/process"]) := by
  refine ⟨?_, fun u => rfl, fun req u => consumeHandler_calls cfg req u⟩
  unfold loadConfig at h
  split at h
  · exact absurd h (by simp)
  · split at h
    · exact absurd h (by simp)
    · cases h
      rfl

/-- Witness for C8 at the empty environment (all defaults). -/
theorem config_url_derivation_immutable_witness :
    cfgDefault.processorUrl =
      "http://" ++ cfgDefault.processorHost ++ ":" ++ cfgDefault.processorPort :=
  (config_url_derivation_immutable (fun _ => none) cfgDefault rfl).1

/-- The processor's configured producer URL follows the environment. -/
theorem loadProcessorConfig_producerUrl (env : String → Option String)
    (c : ProcessorConfig) (h : loadProcessorConfig env = .ok c) :
    c.producerUrl = "http://" ++ getEnv env "PRODUCER_HOST" "producer" ++ ":" ++
      getEnv env "PRODUCER_PORT" "8080" := by
  unfold loadProcessorConfig at h
  split at h
  · exact absurd h (by simp)
  · cases h
    rfl

/-- Whatever the environment, a successfully started processor has registered exactly
`processorHandler`, alongside the configuration it loaded. -/
theorem processorService_registered (env : String → Option String)
    (s : ProcessorConfig × (Option HttpResponse → HandlerResult))
    (h : processorService env = .ok s) :
    s.2 = processorHandler ∧ loadProcessorConfig env = .ok s.1 := by
  unfold processorService at h
  split at h
  · exact absurd h (by simp)
  · cases h
    exact ⟨rfl, by assumption⟩

/-- C9: the processor's /process handler contacts the fixed hardcoded target
`http://producer:8080` for every configuration — two runs of the processor differing
only in the PRODUCER_HOST/PRODUCER_PORT environment register literally the same
handler, whose one outbound GET goes to the hardcoded target, while the configured
`producerUrl` value varies with the environment and is unused by the handler. -/
theorem processor_target_hardcoded (env₁ env₂ : String → Option String)
    (s₁ s₂ : ProcessorConfig × (Option HttpResponse → HandlerResult))
    (h₁ : processorService env₁ = .ok s₁) (h₂ : processorService env₂ = .ok s₂) :
    s₁.2 = s₂.2 ∧
    (∀ u, (s₁.2 u).calls = ["http://producer:8080" ++ "/data"]) ∧
    s₁.1.producerUrl = "http://" ++ getEnv env₁ "PRODUCER_HOST" "producer" ++ ":" ++
      getEnv env₁ "PRODUCER_PORT" "8080" := by
  obtain ⟨e₁, l₁⟩ := processorService_registered env₁ s₁ h₁
  obtain ⟨e₂, l₂⟩ := processorService_registered env₂ s₂ h₂
  refine ⟨e₁.trans e₂.symm, ?_, loadProcessorConfig_producerUrl env₁ s₁.1 l₁⟩
  intro u
  rw [e₁]
  exact processorHandler_calls u

/-- Witness for C9: two environments, one redirecting PRODUCER_HOST, both register a
handler calling the hardcoded target. -/
theorem processor_target_hardcoded_witness :
    (processorHandler none).calls = ["http://producer:8080" ++ "/data"] :=
  (processor_target_hardcoded
      (fun k => if k = "PRODUCER_HOST" then some "elsewhere" else none)
      (fun _ => none)
      ({ port := 8081, producerHost := "elsewhere", producerPort := "8080",
         producerUrl := "http://elsewhere:8080" }, processorHandler)
      ({ port := 8081, producerHost := "producer", producerPort := "8080",
         producerUrl := "http://producer:8080" }, processorHandler)
      rfl rfl).2.1 none
